import Mathlib

set_option maxRecDepth 8000

/-
  Verification development for the StockAnalystAi backend
  (FastAPI server `backend/api/openai_server.py`, workflow graph
  `backend/src/graph.py`, data tools `backend/src/data/tools/data_tools.py`,
  persistence `backend/src/db/mongodb.py`, and the decision classifiers in
  `backend/src/agents/managers/`).

  Python strings are modelled as Lean `String` (lists of unicode scalar
  chars).  The ASCII fragment of `str.upper`/`str.strip` is modelled, which
  is exact for the ticker/keyword domain these functions are applied to
  (Thai text has no case and is left unchanged by `upper`, exactly as in
  Python).  Python dicts with string values are modelled as association
  lists with first-match lookup (dict keys in the source are unique, so the
  semantics agree); the one numeric dict value in the source
  (`confidence`) is never read by any code under verification.
-/

namespace StockAnalystAi

/-- First-match association-list lookup, modelling Python dict access. -/
def alookup {α β : Type} [DecidableEq α] (k : α) : List (α × β) → Option β
  | [] => none
  | p :: t => if k = p.1 then some p.2 else alookup k t

/-- Python dict with string keys and string values. -/
abbrev Dict := List (String × String)

/-- Python `d.get(k, default)` on a string-valued dict. -/
def dget (d : Dict) (k v : String) : String := (alookup k d).getD v

/-- A node result in the server: either a dict or a plain string
(`safe_get` and `ensure_report_dict` in `openai_server.py` branch on this). -/
inductive PyVal where
  | dict (d : Dict)
  | str (s : String)
deriving DecidableEq

/-- `safe_get` from `openai_server.py`: dict lookup with default, or the
string itself when the result is a plain string. -/
def safe_get (result : PyVal) (key : String) (default : String := "") : String :=
  match result with
  | .dict d => dget d key default
  | .str s => s

/-- `ensure_report_dict` from `openai_server.py` (the source also inserts a
numeric `confidence` field, rendered here as its literal text; no verified
code path reads it). -/
def ensure_report_dict (result : PyVal) : Dict :=
  match result with
  | .dict d => d
  | .str s => [("report_section", s), ("confidence", "0.5")]

/-- Python `str.isspace` characters (the ASCII ones): space, tab, LF, VT,
FF, CR; this is what `str.strip` removes. -/
def isWS (c : Char) : Bool :=
  c.toNat = 32 || c.toNat = 9 || c.toNat = 10 || c.toNat = 13 ||
  c.toNat = 11 || c.toNat = 12

/-- The ASCII lower-to-upper case table of Python `str.upper`. -/
def lowUp : List (Char × Char) :=
  [('a', 'A'), ('b', 'B'), ('c', 'C'), ('d', 'D'), ('e', 'E'), ('f', 'F'),
   ('g', 'G'), ('h', 'H'), ('i', 'I'), ('j', 'J'), ('k', 'K'), ('l', 'L'),
   ('m', 'M'), ('n', 'N'), ('o', 'O'), ('p', 'P'), ('q', 'Q'), ('r', 'R'),
   ('s', 'S'), ('t', 'T'), ('u', 'U'), ('v', 'V'), ('w', 'W'), ('x', 'X'),
   ('y', 'Y'), ('z', 'Z')]

/-- Python `str.upper` on one character (ASCII fragment; all other
characters, including Thai, are unchanged, as in Python). -/
def upperC (c : Char) : Char := (alookup c lowUp).getD c

/-- Python `str.strip()` on a list of characters: drop whitespace from both
ends. -/
def pyStrip (l : List Char) : List Char :=
  ((l.dropWhile isWS).reverse.dropWhile isWS).reverse

/-- Python `s.strip().upper()` on a list of characters. -/
def stripUpper (l : List Char) : List Char := (pyStrip l).map upperC

/-- Python `s.strip().upper()` on a string. -/
def stripUpperS (s : String) : String := ⟨stripUpper s.data⟩

/-- Python `str.upper` on a whole string. -/
def upperS (s : String) : String := ⟨s.data.map upperC⟩

/-- Python `s[:n]` (string slice from the start). -/
def takeS (n : Nat) (s : String) : String := ⟨s.data.take n⟩

/-- Python substring test `needle in hay` on lists of characters. -/
def containsC (n : List Char) : List Char → Bool
  | [] => n.isEmpty
  | c :: t => List.isPrefixOf n (c :: t) || containsC n t

/-- Python substring test `needle in hay` on strings. -/
def containsS (needle hay : String) : Bool := containsC needle.data hay.data

/-- The `company_names` mapping of `normalize_ticker`
(`data_tools.py`, lines 223-289). -/
def company_names : List (String × String) :=
  [("MICROSOFT", "MSFT"), ("APPLE", "AAPL"), ("GOOGLE", "GOOGL"),
   ("ALPHABET", "GOOGL"), ("AMAZON", "AMZN"), ("META", "META"),
   ("FACEBOOK", "META"), ("NVIDIA", "NVDA"), ("TESLA", "TSLA"),
   ("NETFLIX", "NFLX"), ("AMD", "AMD"), ("INTEL", "INTC"),
   ("ORACLE", "ORCL"), ("SALESFORCE", "CRM"), ("ADOBE", "ADBE"),
   ("PAYPAL", "PYPL"), ("UBER", "UBER"), ("AIRBNB", "ABNB"),
   ("SPOTIFY", "SPOT"), ("ZOOM", "ZM"), ("SHOPIFY", "SHOP"),
   ("SQUARE", "SQ"), ("BLOCK", "SQ"), ("TWITTER", "TWTR"),
   ("SNAP", "SNAP"), ("SNAPCHAT", "SNAP"), ("PINTEREST", "PINS"),
   ("COINBASE", "COIN"), ("ROBINHOOD", "HOOD"), ("PALANTIR", "PLTR"),
   ("JPMORGAN", "JPM"), ("GOLDMAN", "GS"), ("VISA", "V"),
   ("MASTERCARD", "MA"), ("BERKSHIRE", "BRK-B"), ("BANK OF AMERICA", "BAC"),
   ("WELLS FARGO", "WFC"), ("MORGAN STANLEY", "MS"), ("CITIGROUP", "C"),
   ("BLACKROCK", "BLK"), ("WALMART", "WMT"), ("COSTCO", "COST"),
   ("TARGET", "TGT"), ("NIKE", "NKE"), ("STARBUCKS", "SBUX"),
   ("MCDONALDS", "MCD"), ("COCA-COLA", "KO"), ("PEPSI", "PEP"),
   ("DISNEY", "DIS"), ("JOHNSON", "JNJ"), ("PFIZER", "PFE"),
   ("MODERNA", "MRNA"), ("UNITEDHEALTH", "UNH"), ("BOEING", "BA"),
   ("EXXON", "XOM"), ("CHEVRON", "CVX")]

/-- The `corrections` mapping of `normalize_ticker` (stock typos and
crypto `-USD` suffixing; `data_tools.py`, lines 298-317). -/
def corrections : List (String × String) :=
  [("APPL", "AAPL"), ("TSMC", "TSM"), ("GOOG", "GOOGL"), ("FB", "META"),
   ("TWTR", "TWTR"),
   ("BTC", "BTC-USD"), ("ETH", "ETH-USD"), ("BNB", "BNB-USD"),
   ("XRP", "XRP-USD"), ("ADA", "ADA-USD"), ("DOGE", "DOGE-USD"),
   ("SOL", "SOL-USD"), ("MATIC", "MATIC-USD"), ("DOT", "DOT-USD"),
   ("AVAX", "AVAX-USD")]

/-- `normalize_ticker` from `data_tools.py`: strip and uppercase, then map
company names, then common typos and crypto symbols; otherwise return the
normalized input itself. -/
def normalize_ticker (ticker : String) : String :=
  let t := stripUpperS ticker
  match alookup t company_names with
  | some corrected => corrected
  | none =>
    match alookup t corrections with
    | some corrected => corrected
    | none => t

/-- `CRYPTO_SYMBOLS` from `data_tools.py`. -/
def CRYPTO_SYMBOLS : List String :=
  ["BTC", "ETH", "BNB", "XRP", "ADA", "DOGE", "SOL", "MATIC", "DOT", "AVAX",
   "LINK", "LTC", "UNI", "SHIB", "ATOM", "XLM", "ALGO", "VET", "FTM", "NEAR",
   "BTC-USD", "ETH-USD", "BNB-USD", "XRP-USD", "ADA-USD", "DOGE-USD",
   "SOL-USD", "MATIC-USD", "DOT-USD", "AVAX-USD"]

/-- Python `s.endswith(suffix)`. -/
def endsWithS (suffix s : String) : Bool :=
  List.isPrefixOf suffix.data.reverse s.data.reverse

/-- `is_crypto` from `data_tools.py` (on a non-empty ticker string):
membership in `CRYPTO_SYMBOLS` or a `-USD` suffix, after strip/upper. -/
def is_crypto (ticker : String) : Bool :=
  let t := stripUpperS ticker
  CRYPTO_SYMBOLS.contains t || endsWithS "-USD" t

/-- An SSE event yielded by the streaming handlers: either a content chunk
(`format_sse_chunk`, which wraps the content into a chat-completion delta
envelope) or the terminal sentinel (`format_sse_done`, which carries the
`finish_reason: stop` chunk followed by `data: [DONE]`).  The envelope
metadata (id, timestamp, model name) carries no information relevant to any
claim and is abstracted away. -/
inductive Chunk where
  | content (s : String)
  | done
deriving DecidableEq

/-- `format_sse_chunk` from `openai_server.py`: a content-carrying event. -/
def format_sse_chunk (s : String) : Chunk := .content s

/-- `format_sse_done` from `openai_server.py`: the terminal sentinel. -/
def format_sse_done : Chunk := .done

/-- The worker nodes dispatched by the request handlers. -/
inductive NodeId where
  | market | fundamentals | news | social | risk
  | bull | bear | moderator
  | risky | conservative | neutral | judge | pm
  | crypto | chatAssistant
deriving DecidableEq

/-- The process-wide `session_context` of `openai_server.py`:
`last_ticker`, `last_report`, `last_analysis_data`. -/
structure Cache where
  last_ticker : Option String
  last_report : Option String
  last_analysis_data : Dict
deriving DecidableEq

/-- Python truthiness of an optional string (`None` and `""` are falsy). -/
def truthy : Option String → Bool
  | none => false
  | some s => !(s == "")

/-- Outcomes of the external calls made during one stock run: each agent
call either returns its result dict or raises (carrying `str(e)`). -/
structure StockEnv where
  market : Except String Dict
  fundamentals : Except String Dict
  news : Except String Dict
  social : Except String Dict
  risk : Except String Dict
  bull : Except String Dict
  bear : Except String Dict
  moderator : Except String Dict
  risky : Except String Dict
  conservative : Except String Dict
  neutral : Except String Dict
  judge : Except String Dict
  pm : Except String Dict
  connected : Bool
  now : String

/-- Outcomes of the external calls made during one crypto run. -/
structure CryptoEnv where
  crypto : Except String Dict
  news : Except String Dict
  social : Except String Dict
  connected : Bool
  now : String

/-- The follow-up chat collaborator: `BaseAgent.call_llm` applied to the
system prompt built from the cached context and the user message. -/
structure FollowEnv where
  llm : String → String → Except String String

/-- The outcome of the fan-out analyst at position `i` of the
`asyncio.gather(market, fundamentals, news, social, risk)` call. -/
def analystOutcome (e : StockEnv) (i : Fin 5) : Except String Dict :=
  if i.val = 0 then e.market
  else if i.val = 1 then e.fundamentals
  else if i.val = 2 then e.news
  else if i.val = 3 then e.social
  else e.risk

/-- Whether an external call raised. -/
def isErr : Except String Dict → Bool
  | .error _ => true
  | .ok _ => false

/-- The error text of a call outcome (empty for a success). -/
def errOf : Except String Dict → String
  | .error m => m
  | .ok _ => ""

/-- The result dict of a call outcome (empty for a failure; downstream
code only reads result dicts of calls that succeeded). -/
def readDict : Except String Dict → Dict
  | .ok d => d
  | .error _ => []

/-- The per-run slot table produced by the fan-out group: tasks complete in
temporal order `sched` (a permutation of the five analysts) and each
completion records its result under its slot; `asyncio.gather` then reads
the slots back in declared positional order. -/
def fanTable (e : StockEnv) (sched : List (Fin 5)) :
    List (Fin 5 × Except String Dict) :=
  sched.map fun i => (i, analystOutcome e i)

/-- The error propagated out of `asyncio.gather` (the temporally first
failing member), if any member failed. -/
def firstFailure (e : StockEnv) (sched : List (Fin 5)) : Option String :=
  (sched.find? fun i => isErr (analystOutcome e i)).map
    fun i => errOf (analystOutcome e i)

/-- Read one fan-out slot back from the completion table. -/
def slotRead (e : StockEnv) (sched : List (Fin 5)) (i : Fin 5) : Dict :=
  readDict ((alookup i (fanTable e sched)).getD (Except.ok []))

/-- One step of a sequential chain of awaited agent calls: the progress
messages yielded before the call, the node dispatched, and its outcome. -/
abbrev ChainStep := List String × NodeId × Except String Dict

/-- Run a sequential chain of awaited calls: emit each step's progress
messages, dispatch its node, and stop at the first call that raises,
returning the emitted messages, the dispatched nodes, and the error if
any. -/
def runChain : List ChainStep → List String × List NodeId × Option String
  | [] => ([], [], none)
  | (pre, n, out) :: rest =>
    match out with
    | .error m => (pre, [n], some m)
    | .ok _ =>
      let r := runChain rest
      (pre ++ r.1, n :: r.2.1, r.2.2)

/-- Python `range`-strided chunking used to stream the report:
`report[i:i+n]` for `i = 0, n, 2n, ...`; the fuel argument (instantiated
with the string length, an upper bound on the number of chunks for any
chunk size of at least one) keeps the recursion structural. -/
def chunksGo (n : Nat) : Nat → List Char → List (List Char)
  | 0, _ => []
  | _, [] => []
  | fuel + 1, c :: t => (c :: t).take n :: chunksGo n fuel ((c :: t).drop n)

/-- Chunk a character list into pieces of `n` characters (last piece may be
shorter), as the streaming loops do with `n = 500` and `n = 200`. -/
def chunksOfC (n : Nat) (l : List Char) : List (List Char) :=
  chunksGo n l.length l

/-- Chunk a string into pieces of at most `n` characters, in order. -/
def chunksOfStr (n : Nat) (s : String) : List String :=
  (chunksOfC n s.data).map fun l => ⟨l⟩

/-- The section separator used between report fragments. -/
def sepLine : String := "\n---"

/-- The `sections` list of `build_report` (`openai_server.py`, lines
596-628): header (title, date, final decision), the nine node fragments
each preceded by a separator, and the trailing disclaimer.  `now` stands
for the `datetime.now()` timestamp string. -/
def buildReportSections (ticker final_decision : String)
    (market_result fundamentals_result news_result social_result
     risk_result bull_result bear_result decision pm_decision : Dict)
    (now : String) : List String :=
  ["# 📊 รายงานการวิเคราะห์หุ้น " ++ ticker,
   "\n**วันที่วิเคราะห์:** " ++ now,
   "\n**คำตัดสินสุดท้าย:** " ++ final_decision,
   sepLine,
   dget market_result "report_section" "",
   sepLine,
   dget fundamentals_result "report_section" "",
   sepLine,
   dget news_result "report_section" "",
   sepLine,
   dget social_result "report_section" "",
   sepLine,
   dget risk_result "report_section" "",
   sepLine,
   dget bull_result "report_section" "",
   sepLine,
   dget bear_result "report_section" "",
   sepLine,
   dget decision "report_section" "",
   sepLine,
   dget pm_decision "report_section" "",
   sepLine,
   "\n## ⚠️ Disclaimer",
   "\n**คำเตือน:** รายงานนี้จัดทำโดย AI เพื่อเป็นข้อมูลประกอบการตัดสินใจเท่านั้น"]

/-- `build_report` from `openai_server.py`: the joined section list. -/
def build_report (ticker final_decision : String)
    (market_result fundamentals_result news_result social_result
     risk_result bull_result bear_result decision pm_decision : Dict)
    (now : String) : String :=
  String.intercalate "\n"
    (buildReportSections ticker final_decision market_result
      fundamentals_result news_result social_result risk_result
      bull_result bear_result decision pm_decision now)

/-- The `sections` list of `build_crypto_report` (`openai_server.py`,
lines 421-440). -/
def buildCryptoReportSections (ticker : String)
    (crypto_result news_result social_result : Dict)
    (now : String) : List String :=
  ["# 💰 รายงานการวิเคราะห์ Cryptocurrency " ++ ticker,
   "\n**วันที่วิเคราะห์:** " ++ now,
   "\n**สัญญาณ:** " ++ dget crypto_result "sentiment" "NEUTRAL",
   sepLine,
   dget crypto_result "report_section" "",
   sepLine,
   dget news_result "report_section" "",
   sepLine,
   dget social_result "report_section" "",
   sepLine,
   "\n## ⚠️ Disclaimer",
   "\n**คำเตือน:** Cryptocurrency มีความผันผวนสูงมาก การลงทุนมีความเสี่ยง ควรศึกษาข้อมูลให้ดีก่อนตัดสินใจ",
   "\n**หมายเหตุ:** รายงานนี้จัดทำโดย AI เพื่อเป็นข้อมูลประกอบการตัดสินใจเท่านั้น"]

/-- `build_crypto_report` from `openai_server.py`. -/
def build_crypto_report (ticker : String)
    (crypto_result news_result social_result : Dict)
    (now : String) : String :=
  String.intercalate "\n"
    (buildCryptoReportSections ticker crypto_result news_result
      social_result now)

/-- The decision extraction of `PortfolioManager.decide`
(`portfolio_manager.py`, lines 75-86): keyword scan over the uppercased
LLM report, defaulting to HOLD. -/
def pmExtractDecision (report : String) : String :=
  if containsS "ACTION: BUY" (upperS report) ||
     containsS "**BUY**" (upperS report) ||
     containsS "RECOMMENDATION: BUY" (upperS report) then "BUY"
  else if containsS "ACTION: SELL" (upperS report) ||
     containsS "**SELL**" (upperS report) ||
     containsS "RECOMMENDATION: SELL" (upperS report) then "SELL"
  else "HOLD"

/-- The result dict returned by `PortfolioManager.decide` for the LLM
report text `report`. -/
def pm_decide (report : String) : Dict :=
  [("decision", pmExtractDecision report), ("report_section", report)]

/-- The decision extraction of `RiskJudge.judge` (`risk_judge.py`, lines
118-124): BUY/SELL only when the uppercased response mentions exactly one
of the two words, otherwise HOLD. -/
def judgeExtractDecision (response : String) : String :=
  if containsS "BUY" (upperS response) &&
     !(containsS "SELL" (upperS response)) then "BUY"
  else if containsS "SELL" (upperS response) &&
     !(containsS "BUY" (upperS response)) then "SELL"
  else "HOLD"

/-- The winning-side extraction of `RiskJudge.judge` (`risk_judge.py`,
lines 126-131): Thai keyword scan, defaulting to NEUTRAL. -/
def judgeWinningSide (response : String) : String :=
  if containsS "เสี่ยง" response && containsS "แข็งแกร่ง" response then "RISKY"
  else if containsS "อนุรักษ์" response && containsS "แข็งแกร่ง" response then
    "CONSERVATIVE"
  else "NEUTRAL"

/-- The result dict returned by `RiskJudge.judge` for the (possibly
fallback) response text `response`. -/
def risk_judge_result (response : String) : Dict :=
  [("decision", judgeExtractDecision response),
   ("winning_side", judgeWinningSide response),
   ("verdict", response),
   ("report_section", "## ⚖️ คำตัดสินของผู้พิพากษา (Risk Judge)\n\n" ++ response)]

/-- `MongoDBClient.save_analysis` (`mongodb.py`, lines 46-77): returns
`None` when not connected; otherwise inserts the document and returns its
id, catching any exception of the insert and returning `None`.  The
`Except` layer is the method's own raise behaviour: an `Except.error`
result would mean the method itself raised. -/
def save_analysis (connected : Bool) (insertOutcome : Except String String) :
    Except String (Option String) :=
  if !connected then Except.ok none
  else
    match insertOutcome with
    | .ok insertedId => Except.ok (some insertedId)
    | .error _ => Except.ok none

instance {α β : Type} [DecidableEq α] [DecidableEq β] :
    DecidableEq (Except α β) := fun x y =>
  match x, y with
  | .ok a, .ok b =>
    if h : a = b then .isTrue (by rw [h])
    else .isFalse (by intro hh; cases hh; exact h rfl)
  | .error a, .error b =>
    if h : a = b then .isTrue (by rw [h])
    else .isFalse (by intro hh; cases hh; exact h rfl)
  | .ok _, .error _ => .isFalse (by intro hh; cases hh)
  | .error _, .ok _ => .isFalse (by intro hh; cases hh)

/-- A recorded persistence attempt: the `(ticker, final_decision,
report_content)` arguments passed to `save_analysis`, with the value the
call returned. -/
abbrev SaveCall := (String × String × String) × Except String (Option String)

/-- Everything observable about one handled request: the yielded SSE event
sequence, the worker nodes dispatched (in dispatch order), the session
cache after the request, and the persistence attempts made. -/
structure StreamOut where
  chunks : List Chunk
  invoked : List NodeId
  cacheAfter : Cache
  saves : List SaveCall
deriving DecidableEq

/-- The failure message yielded by the streaming handlers
(`f"\n\n❌ เกิดข้อผิดพลาด: {str(e)}"`). -/
def errText (m : String) : String := "\n\n❌ เกิดข้อผิดพลาด: " ++ m

/-- The fan-out group of the stock flow. -/
def fanOutNodes : List NodeId :=
  [.market, .fundamentals, .news, .social, .risk]

/-- The sequential chain awaited after the fan-out join in
`stream_analysis` (Phases 2-5), with the progress messages yielded before
each call. -/
def stockChain (e : StockEnv) : List ChainStep :=
  [(["✅ รวบรวมข้อมูลเสร็จสิ้น\n\n", "🐂🐻 **Phase 2:** Bull vs Bear Debate...\n"],
    .bull, e.bull),
   ([], .bear, e.bear),
   (["✅ Bull vs Bear เสร็จสิ้น\n\n", "⚖️ **Phase 3:** Moderating debate...\n"],
    .moderator, e.moderator),
   (["✅ Moderation เสร็จสิ้น\n\n", "⚠️ **Phase 4:** Risk Analysis...\n"],
    .risky, e.risky),
   ([], .conservative, e.conservative),
   ([], .neutral, e.neutral),
   ([], .judge, e.judge),
   (["✅ Risk Analysis เสร็จสิ้น\n\n", "💼 **Phase 5:** Final Decision...\n"],
    .pm, e.pm)]

/-- The final decision extracted from the portfolio manager result
(`pm_decision.get("decision", "HOLD")`). -/
def finalDecisionOf (e : StockEnv) : String :=
  dget (readDict e.pm) "decision" "HOLD"

/-- The report built on the success path of a stock run, from the fan-out
slots and the chained results. -/
def successReport (t : String) (sched : List (Fin 5)) (e : StockEnv) : String :=
  build_report t (finalDecisionOf e)
    (slotRead e sched 0) (slotRead e sched 1) (slotRead e sched 2)
    (slotRead e sched 3) (slotRead e sched 4)
    (readDict e.bull) (readDict e.bear) (readDict e.moderator)
    (readDict e.pm) e.now

/-- The `last_analysis_data` dict stored after a successful stock run
(`openai_server.py`, lines 336-348). -/
def stockAnalysisData (t : String) (sched : List (Fin 5)) (e : StockEnv) :
    Dict :=
  [("ticker", t),
   ("decision", finalDecisionOf e),
   ("market", safe_get (.dict (slotRead e sched 0)) "report_section" ""),
   ("fundamentals", safe_get (.dict (slotRead e sched 1)) "report_section" ""),
   ("news", safe_get (.dict (slotRead e sched 2)) "report_section" ""),
   ("social", safe_get (.dict (slotRead e sched 3)) "report_section" ""),
   ("risk", safe_get (.dict (slotRead e sched 4)) "report_section" ""),
   ("bull", safe_get (.dict (readDict e.bull)) "report_section" ""),
   ("bear", safe_get (.dict (readDict e.bear)) "report_section" ""),
   ("debate", safe_get (.dict (readDict e.moderator)) "report_section" ""),
   ("pm_decision", safe_get (.dict (readDict e.pm)) "report_section" "")]

/-- The streaming stock flow of `stream_analysis` (`openai_server.py`,
lines 224-353): progress banners, the five-analyst fan-out, the sequential
Phases 2-5, chunked report delivery, the MongoDB save, the session-cache
update, and the terminal sentinel; any raised exception is caught and
reported as a failure chunk before the sentinel. -/
def streamStock (t : String) (sched : List (Fin 5)) (e : StockEnv)
    (ins : Except String String) (cache : Cache) : StreamOut :=
  let pre := ["🔍 เริ่มวิเคราะห์หุ้น **" ++ t ++ "**...\n\n",
              "📊 **Phase 1:** กำลังรวบรวมข้อมูล...\n"]
  match firstFailure e sched with
  | some m =>
    ⟨(pre ++ [errText m]).map format_sse_chunk ++ [format_sse_done],
     fanOutNodes, cache, []⟩
  | none =>
    let r := runChain (stockChain e)
    match r.2.2 with
    | some m =>
      ⟨(pre ++ r.1 ++ [errText m]).map format_sse_chunk ++ [format_sse_done],
       fanOutNodes ++ r.2.1, cache, []⟩
    | none =>
      let fd := finalDecisionOf e
      let report := successReport t sched e
      ⟨(pre ++ r.1 ++
          ["✅ **คำตัดสินสุดท้าย: " ++ fd ++ "**\n\n", "---\n\n"] ++
          chunksOfStr 500 report).map format_sse_chunk ++ [format_sse_done],
       fanOutNodes ++ r.2.1,
       ⟨some t, some report, stockAnalysisData t sched e⟩,
       if e.connected then
         [((t, fd, report), save_analysis e.connected ins)]
       else []⟩

/-- The sequential chain of `stream_crypto_analysis` (`openai_server.py`,
lines 356-418). -/
def cryptoChain (ec : CryptoEnv) : List ChainStep :=
  [(["📊 **Phase 1:** กำลังรวบรวมข้อมูล Crypto...\n"], .crypto, ec.crypto),
   (["✅ รวบรวมข้อมูลเสร็จสิ้น\n\n", "📰 **Phase 2:** วิเคราะห์ข่าวสาร...\n"],
    .news, ec.news),
   (["✅ วิเคราะห์ข่าวเสร็จสิ้น\n\n", "💬 **Phase 3:** วิเคราะห์ Social Sentiment...\n"],
    .social, ec.social)]

/-- The sentiment of a crypto run (`crypto_result.get("sentiment",
"NEUTRAL")`). -/
def cryptoSentiment (ec : CryptoEnv) : String :=
  dget (readDict ec.crypto) "sentiment" "NEUTRAL"

/-- The report built on the success path of a crypto run. -/
def cryptoSuccessReport (t : String) (ec : CryptoEnv) : String :=
  build_crypto_report t (readDict ec.crypto) (readDict ec.news)
    (readDict ec.social) ec.now

/-- The `last_analysis_data` dict stored after a successful crypto run
(`openai_server.py`, lines 406-413). -/
def cryptoAnalysisData (t : String) (ec : CryptoEnv) : Dict :=
  [("ticker", t),
   ("decision", cryptoSentiment ec),
   ("asset_type", "crypto"),
   ("market", safe_get (.dict (readDict ec.crypto)) "report_section" ""),
   ("news", safe_get (.dict (readDict ec.news)) "report_section" ""),
   ("social", safe_get (.dict (readDict ec.social)) "report_section" "")]

/-- `stream_crypto_analysis` from `openai_server.py`. -/
def streamCrypto (t : String) (ec : CryptoEnv) (ins : Except String String)
    (cache : Cache) : StreamOut :=
  let pre := ["💰 เริ่มวิเคราะห์ Crypto **" ++ t ++ "**...\n\n"]
  let r := runChain (cryptoChain ec)
  match r.2.2 with
  | some m =>
    ⟨(pre ++ r.1 ++ [errText m]).map format_sse_chunk ++ [format_sse_done],
     r.2.1, cache, []⟩
  | none =>
    let snt := cryptoSentiment ec
    let report := cryptoSuccessReport t ec
    ⟨(pre ++ r.1 ++
        ["✅ Social Sentiment เสร็จสิ้น\n\n",
         "✅ **สัญญาณ: " ++ snt ++ "**\n\n", "---\n\n"] ++
        chunksOfStr 500 report).map format_sse_chunk ++ [format_sse_done],
     r.2.1,
     ⟨some t, some report, cryptoAnalysisData t ec⟩,
     if ec.connected then
       [((t, snt, report), save_analysis ec.connected ins)]
     else []⟩

/-- An ASCII apostrophe (written by code point to keep source text plain). -/
def apos : String := String.singleton (Char.ofNat 39)

/-- The fixed instructional message returned when no ticker resolves and no
cached context exists. -/
def noTickerMsg : String :=
  "ไม่พบ ticker ในข้อความ กรุณาระบุหุ้นที่ต้องการวิเคราะห์ เช่น " ++ apos ++
  "วิเคราะห์ AAPL" ++ apos

/-- The `context_summary` string that `stream_followup_chat` builds from
`session_context["last_analysis_data"]` (`openai_server.py`, lines
452-476). -/
def followupContextSummary (cache : Cache) : String :=
  let ctx := cache.last_analysis_data
  let ticker := dget ctx "ticker" ""
  "\n=== ข้อมูลการวิเคราะห์ " ++ ticker ++ " ===\n" ++
  "คำตัดสิน: " ++ dget ctx "decision" "N/A" ++ "\n\n" ++
  "สรุปตลาด:\n" ++ takeS 800 (dget ctx "market" "") ++ "\n\n" ++
  "ปัจจัยพื้นฐาน:\n" ++ takeS 800 (dget ctx "fundamentals" "") ++ "\n\n" ++
  "ข่าวสาร:\n" ++ takeS 500 (dget ctx "news" "") ++ "\n\n" ++
  "ความเสี่ยง:\n" ++ takeS 500 (dget ctx "risk" "") ++ "\n\n" ++
  "มุมมอง Bull:\n" ++ takeS 500 (dget ctx "bull" "") ++ "\n\n" ++
  "มุมมอง Bear:\n" ++ takeS 500 (dget ctx "bear" "") ++ "\n\n" ++
  "คำตัดสินผู้จัดการพอร์ต:\n" ++ takeS 800 (dget ctx "pm_decision" "") ++ "\n"

/-- The system prompt of `stream_followup_chat` (`openai_server.py`, lines
478-490), grounded in the cached analysis context. -/
def followupSystemPrompt (cache : Cache) : String :=
  let ticker := dget cache.last_analysis_data "ticker" ""
  "คุณเป็นผู้ช่วยนักวิเคราะห์หุ้น AI ที่เพิ่งวิเคราะห์หุ้น " ++ ticker ++ " เสร็จ\n" ++
  "ตอนนี้ผู้ใช้กำลังถามคำถามเพิ่มเติมเกี่ยวกับการวิเคราะห์นี้\n\n" ++
  "หน้าที่ของคุณ:\n" ++
  "- ตอบคำถามโดยอ้างอิงจากข้อมูลการวิเคราะห์ที่มี\n" ++
  "- สรุปหรืออธิบายเพิ่มเติมตามที่ผู้ใช้ต้องการ\n" ++
  "- ตอบเป็นภาษาไทย กระชับ ได้ใจความ\n" ++
  "- ถ้าผู้ใช้ขอสรุป ให้สรุปประเด็นหลักๆ\n" ++
  "- ถ้าผู้ใช้ถามเรื่องความเสี่ยง ให้เน้นข้อมูลจากส่วน Risk\n" ++
  "- ถ้าผู้ใช้ถามราคา ให้อ้างอิงจากข้อมูลที่มี\n\n" ++
  followupContextSummary cache ++ "\n"

/-- `stream_followup_chat` from `openai_server.py` (lines 443-511): one
chat task grounded in the cached report context, streamed in 200-character
chunks; the cache is read-only here and no persistence happens. -/
def streamFollowup (userMsg : String) (ef : FollowEnv) (cache : Cache) :
    StreamOut :=
  let ticker := dget cache.last_analysis_data "ticker" ""
  let pre := ["💬 **กำลังตอบคำถามเกี่ยวกับ " ++ ticker ++ "...**\n\n"]
  match ef.llm (followupSystemPrompt cache) userMsg with
  | .ok response =>
    ⟨(pre ++ chunksOfStr 200 response).map format_sse_chunk ++
       [format_sse_done],
     [.chatAssistant], cache, []⟩
  | .error m =>
    ⟨(pre ++ [errText m]).map format_sse_chunk ++ [format_sse_done],
     [.chatAssistant], cache, []⟩

/-- `stream_analysis` from `openai_server.py` (lines 200-353): follow-up
routing when no ticker resolved, ticker normalization, the crypto branch,
and the stock branch. -/
def stream_analysis (ticker : Option String) (userMsg : String)
    (sched : List (Fin 5)) (e : StockEnv) (ec : CryptoEnv) (ef : FollowEnv)
    (ins : Except String String) (cache : Cache) : StreamOut :=
  match ticker with
  | none =>
    if truthy cache.last_ticker && truthy cache.last_report then
      streamFollowup userMsg ef cache
    else
      ⟨[format_sse_chunk noTickerMsg, format_sse_done], [], cache, []⟩
  | some t0 =>
    let t := normalize_ticker t0
    if is_crypto t then streamCrypto t ec ins cache
    else streamStock t sched e ins cache

/-- The non-streaming failure message (`run_analysis`, line 593). -/
def runErrText (m : String) : String := "❌ เกิดข้อผิดพลาด: " ++ m

/-- The strictly sequential call chain of `run_analysis` (`openai_server.py`,
lines 523-576): the five analysts one after another, then Phases 2-5. -/
def runAnalysisChain (e : StockEnv) : List ChainStep :=
  [([], .market, e.market), ([], .fundamentals, e.fundamentals),
   ([], .news, e.news), ([], .social, e.social), ([], .risk, e.risk),
   ([], .bull, e.bull), ([], .bear, e.bear),
   ([], .moderator, e.moderator),
   ([], .risky, e.risky), ([], .conservative, e.conservative),
   ([], .neutral, e.neutral), ([], .judge, e.judge), ([], .pm, e.pm)]

/-- The report built on the success path of `run_analysis`. -/
def runSuccessReport (t : String) (e : StockEnv) : String :=
  build_report t (finalDecisionOf e)
    (readDict e.market) (readDict e.fundamentals) (readDict e.news)
    (readDict e.social) (readDict e.risk)
    (readDict e.bull) (readDict e.bear) (readDict e.moderator)
    (readDict e.pm) e.now

/-- The observable result of the non-streaming path: the response text,
the nodes dispatched, the session cache afterwards, and the persistence
attempts. -/
structure RunOut where
  response : String
  invoked : List NodeId
  cacheAfter : Cache
  saves : List SaveCall
deriving DecidableEq

/-- `run_analysis` from `openai_server.py` (lines 514-593): the
non-streaming handler.  With no resolved ticker it returns the fixed
instructional message at once (it never consults the session cache and
dispatches nothing); otherwise it runs the whole stock chain sequentially,
returns the report or the failure text, saves on success when connected,
and never touches the session cache. -/
def run_analysis (ticker : Option String) (e : StockEnv)
    (ins : Except String String) (cache : Cache) : RunOut :=
  match ticker with
  | none => ⟨noTickerMsg, [], cache, []⟩
  | some t0 =>
    let t := normalize_ticker t0
    let r := runChain (runAnalysisChain e)
    match r.2.2 with
    | some m => ⟨runErrText m, r.2.1, cache, []⟩
    | none =>
      ⟨runSuccessReport t e, r.2.1, cache,
       if e.connected then
         [((t, finalDecisionOf e, runSuccessReport t e),
           save_analysis e.connected ins)]
       else []⟩

/-- Spec-side description: each report fragment preceded by one separator
line. -/
def interleaveSep (frags : List String) : List String :=
  frags.foldr (fun s acc => sepLine :: s :: acc) []

/-- Spec-side description of the stock report layout: header (title, date,
final decision), the node fragments in the declared order each preceded by
a separator, then the disclaimer trailer. -/
def stockReportLayout (ticker final_decision now : String)
    (frags : List String) : List String :=
  ["# 📊 รายงานการวิเคราะห์หุ้น " ++ ticker,
   "\n**วันที่วิเคราะห์:** " ++ now,
   "\n**คำตัดสินสุดท้าย:** " ++ final_decision] ++
  interleaveSep frags ++
  [sepLine,
   "\n## ⚠️ Disclaimer",
   "\n**คำเตือน:** รายงานนี้จัดทำโดย AI เพื่อเป็นข้อมูลประกอบการตัดสินใจเท่านั้น"]

/-- Spec-side description of the stock report fragment order as the code
declares it: the five fan-out analysts, the two advocates, the debate
synthesis, and the final decision. -/
def stockFragmentOrder (market_result fundamentals_result news_result
    social_result risk_result bull_result bear_result decision
    pm_decision : Dict) : List String :=
  [dget market_result "report_section" "",
   dget fundamentals_result "report_section" "",
   dget news_result "report_section" "",
   dget social_result "report_section" "",
   dget risk_result "report_section" "",
   dget bull_result "report_section" "",
   dget bear_result "report_section" "",
   dget decision "report_section" "",
   dget pm_decision "report_section" ""]

/-- Spec-side description of the crypto disclaimer trailer (fixed, last). -/
def cryptoDisclaimer : List String :=
  ["\n## ⚠️ Disclaimer",
   "\n**คำเตือน:** Cryptocurrency มีความผันผวนสูงมาก การลงทุนมีความเสี่ยง ควรศึกษาข้อมูลให้ดีก่อนตัดสินใจ",
   "\n**หมายเหตุ:** รายงานนี้จัดทำโดย AI เพื่อเป็นข้อมูลประกอบการตัดสินใจเท่านั้น"]

/-- Spec-side description of the crypto report layout: header, the
specialized fragment then news then social (each preceded by a separator),
then the fixed disclaimer last. -/
def cryptoReportLayout (ticker sentiment now : String)
    (frags : List String) : List String :=
  ["# 💰 รายงานการวิเคราะห์ Cryptocurrency " ++ ticker,
   "\n**วันที่วิเคราะห์:** " ++ now,
   "\n**สัญญาณ:** " ++ sentiment] ++
  interleaveSep frags ++ [sepLine] ++ cryptoDisclaimer

/-- A chunk carries `needle` as a substring. -/
def chunkHasSub (needle : String) : Chunk → Bool
  | .content s => containsS needle s
  | .done => false

/-- The event sequence ends with exactly one terminal sentinel, which is
its last element, and no sentinel occurs earlier. -/
def terminalOnce (l : List Chunk) : Prop :=
  ∃ c, l = c ++ [Chunk.done] ∧ Chunk.done ∉ c

/-- A successful agent-call outcome carrying just a report fragment. -/
def okd (frag : String) : Except String Dict :=
  Except.ok [("report_section", frag)]

/-- The declared dispatch order of the fan-out tasks. -/
def idSched : List (Fin 5) := [0, 1, 2, 3, 4]

/-- An empty session cache (process start). -/
def cache0 : Cache := ⟨none, none, []⟩

/-- A session cache left by an earlier successful AAPL run. -/
def cacheAAPL : Cache :=
  ⟨some "AAPL", some "AAPL_REPORT",
   [("ticker", "AAPL"), ("decision", "BUY"), ("market", "AAPL_MKT")]⟩

/-- A concrete all-success stock environment with distinct fragments for
every node, including the risk-debator chain and the risk judge. -/
def envAllOk : StockEnv :=
  ⟨okd "MFRAG", okd "FFRAG", okd "NFRAG", okd "SFRAG", okd "RFRAG",
   okd "BULLFRAG", okd "BEARFRAG", okd "MODFRAG",
   okd "RISKYFRAG", okd "CONSFRAG", okd "NEUTFRAG",
   Except.ok [("report_section", "JUDGEFRAG")],
   Except.ok [("decision", "BUY"), ("report_section", "PMFRAG")],
   true, "T0"⟩

/-- A concrete stock environment in which the market analyst raises while
its four fan-out siblings complete with their fragments. -/
def envMarketFails : StockEnv :=
  ⟨Except.error "MARKET_DOWN",
   okd "FUNDFRAG", okd "NEWSFRAG", okd "SOCFRAG", okd "RISKFRAG",
   okd "BULLFRAG", okd "BEARFRAG", okd "MODFRAG",
   okd "RISKYFRAG", okd "CONSFRAG", okd "NEUTFRAG",
   okd "JUDGEFRAG",
   Except.ok [("decision", "HOLD"), ("report_section", "PMFRAG")],
   true, "T0"⟩

/-- A concrete all-success crypto environment. -/
def envCryptoOk : CryptoEnv :=
  ⟨Except.ok [("sentiment", "BULLISH"), ("report_section", "CFRAG")],
   okd "CNEWSFRAG", okd "CSOCFRAG", true, "T0"⟩

/-- The all-success stock environment with the persistence client not
connected. -/
def envNoDb : StockEnv :=
  ⟨okd "MFRAG", okd "FFRAG", okd "NFRAG", okd "SFRAG", okd "RFRAG",
   okd "BULLFRAG", okd "BEARFRAG", okd "MODFRAG",
   okd "RISKYFRAG", okd "CONSFRAG", okd "NEUTFRAG",
   Except.ok [("report_section", "JUDGEFRAG")],
   Except.ok [("decision", "BUY"), ("report_section", "PMFRAG")],
   false, "T0"⟩

/-- A concrete follow-up collaborator that answers successfully. -/
def followOk : FollowEnv := ⟨fun _ _ => Except.ok "FOLLOWUP_ANSWER"⟩

/-- A concrete successful insert outcome. -/
def insOk : Except String String := Except.ok "oid1"

/-- The full sequential dispatch order of the non-streaming handler. -/
def seqNodes : List NodeId :=
  [.market, .fundamentals, .news, .social, .risk,
   .bull, .bear, .moderator, .risky, .conservative, .neutral, .judge, .pm]

/-! Helper lemmas. -/

theorem done_not_mem_map (ss : List String) :
    Chunk.done ∉ ss.map format_sse_chunk := by
  intro hm
  rcases List.mem_map.mp hm with ⟨a, _, ha⟩
  simp [format_sse_chunk] at ha

theorem terminalOnce_shape (ss : List String) :
    terminalOnce (ss.map format_sse_chunk ++ [format_sse_done]) :=
  ⟨ss.map format_sse_chunk, rfl, done_not_mem_map ss⟩

theorem streamStock_chunks_shape (t : String) (sched : List (Fin 5))
    (e : StockEnv) (ins : Except String String) (cache : Cache) :
    ∃ ss : List String, (streamStock t sched e ins cache).chunks =
      ss.map format_sse_chunk ++ [format_sse_done] := by
  unfold streamStock
  cases hf : firstFailure e sched with
  | some m => simp only [hf]; exact ⟨_, rfl⟩
  | none =>
    simp only [hf]
    cases hr : (runChain (stockChain e)).2.2 with
    | some m => simp only [hr]; exact ⟨_, rfl⟩
    | none => simp only [hr]; exact ⟨_, rfl⟩

theorem streamCrypto_chunks_shape (t : String) (ec : CryptoEnv)
    (ins : Except String String) (cache : Cache) :
    ∃ ss : List String, (streamCrypto t ec ins cache).chunks =
      ss.map format_sse_chunk ++ [format_sse_done] := by
  unfold streamCrypto
  cases hr : (runChain (cryptoChain ec)).2.2 with
  | some m => simp only [hr]; exact ⟨_, rfl⟩
  | none => simp only [hr]; exact ⟨_, rfl⟩

theorem streamFollowup_chunks_shape (userMsg : String) (ef : FollowEnv)
    (cache : Cache) :
    ∃ ss : List String, (streamFollowup userMsg ef cache).chunks =
      ss.map format_sse_chunk ++ [format_sse_done] := by
  unfold streamFollowup
  cases hr : ef.llm (followupSystemPrompt cache) userMsg with
  | ok r => simp only [hr]; exact ⟨_, rfl⟩
  | error m => simp only [hr]; exact ⟨_, rfl⟩

/-- C1: every streaming request handled by `stream_analysis` — the
no-ticker branches (follow-up and fixed message), the crypto branch, and
the stock branch, on both success and exception paths — yields an event
sequence that ends with exactly one terminal sentinel (`format_sse_done`)
as its last element, with no sentinel emitted earlier. -/
theorem C1_terminal_sentinel (ticker : Option String) (userMsg : String)
    (sched : List (Fin 5)) (e : StockEnv) (ec : CryptoEnv) (ef : FollowEnv)
    (ins : Except String String) (cache : Cache) :
    terminalOnce
      (stream_analysis ticker userMsg sched e ec ef ins cache).chunks := by
  cases ticker with
  | none =>
    show terminalOnce
      ((if (truthy cache.last_ticker && truthy cache.last_report) = true then
          streamFollowup userMsg ef cache
        else
          ⟨[format_sse_chunk noTickerMsg, format_sse_done], [], cache,
           []⟩).chunks)
    by_cases h : (truthy cache.last_ticker && truthy cache.last_report) = true
    · rw [if_pos h]
      obtain ⟨ss, hss⟩ := streamFollowup_chunks_shape userMsg ef cache
      rw [hss]
      exact terminalOnce_shape ss
    · rw [if_neg h]
      exact ⟨[format_sse_chunk noTickerMsg], rfl, by simp [format_sse_chunk]⟩
  | some t0 =>
    show terminalOnce
      ((if is_crypto (normalize_ticker t0) = true then
          streamCrypto (normalize_ticker t0) ec ins cache
        else streamStock (normalize_ticker t0) sched e ins cache).chunks)
    by_cases h : is_crypto (normalize_ticker t0) = true
    · rw [if_pos h]
      obtain ⟨ss, hss⟩ :=
        streamCrypto_chunks_shape (normalize_ticker t0) ec ins cache
      rw [hss]
      exact terminalOnce_shape ss
    · rw [if_neg h]
      obtain ⟨ss, hss⟩ :=
        streamStock_chunks_shape (normalize_ticker t0) sched e ins cache
      rw [hss]
      exact terminalOnce_shape ss

/-- C3 counterexample: in a fully successful stock run in which the risk
judge produced the fragment `JUDGEFRAG` and the risky debator produced
`RISKYFRAG`, neither fragment occurs anywhere in the streamed output (in
particular not in the aggregated report), so the claimed section order —
which places the three risk-debator fragments and the judgment fragment
inside the report — is false. -/
theorem C3_counterexample :
    dget (readDict envAllOk.judge) "report_section" "" = "JUDGEFRAG" ∧
    dget (readDict envAllOk.risky) "report_section" "" = "RISKYFRAG" ∧
    (streamStock "AA" idSched envAllOk insOk cache0).cacheAfter.last_ticker
      = some "AA" ∧
    ((streamStock "AA" idSched envAllOk insOk cache0).chunks.all
      fun c => !chunkHasSub "JUDGEFRAG" c) = true ∧
    ((streamStock "AA" idSched envAllOk insOk cache0).chunks.all
      fun c => !chunkHasSub "RISKYFRAG" c) = true := by
  refine ⟨rfl, rfl, rfl, ?_, ?_⟩ <;> decide

/-- C3 (amended): for every successful subject-class-A run, the aggregated
report's section order is: header, then the 5 fan-out analyst fragments
(market, fundamentals, news, social, risk), then the 2 advocate fragments
(bull, bear), then the debate-moderator synthesis fragment, then the
final-decision fragment, then the disclaimer; the three risk-debator chain
fragments and the judgment fragment are not part of the report (they only
feed the decision inputs). -/
theorem C3_report_order_amended (ticker final_decision : String)
    (market_result fundamentals_result news_result social_result
     risk_result bull_result bear_result decision pm_decision : Dict)
    (now : String) :
    buildReportSections ticker final_decision market_result
        fundamentals_result news_result social_result risk_result
        bull_result bear_result decision pm_decision now =
      stockReportLayout ticker final_decision now
        (stockFragmentOrder market_result fundamentals_result news_result
          social_result risk_result bull_result bear_result decision
          pm_decision) := rfl

/-- C8: for every successful subject-class-B (crypto) run, the aggregated
report's fragment order is the specialized crypto fragment first, then
news, then social, with the fixed disclaimer trailer last. -/
theorem C8_crypto_report_order (ticker : String)
    (crypto_result news_result social_result : Dict) (now : String) :
    buildCryptoReportSections ticker crypto_result news_result social_result
        now =
      cryptoReportLayout ticker (dget crypto_result "sentiment" "NEUTRAL") now
        [dget crypto_result "report_section" "",
         dget news_result "report_section" "",
         dget social_result "report_section" ""] ∧
    ∃ pre, buildCryptoReportSections ticker crypto_result news_result
        social_result now = pre ++ cryptoDisclaimer :=
  ⟨rfl,
   ⟨["# 💰 รายงานการวิเคราะห์ Cryptocurrency " ++ ticker,
     "\n**วันที่วิเคราะห์:** " ++ now,
     "\n**สัญญาณ:** " ++ dget crypto_result "sentiment" "NEUTRAL",
     sepLine, dget crypto_result "report_section" "",
     sepLine, dget news_result "report_section" "",
     sepLine, dget social_result "report_section" "",
     sepLine], rfl⟩⟩

/-- C10: the decision classifiers are total over strings: for every LLM
response, `PortfolioManager.decide` yields a decision in BUY/SELL/HOLD
(defaulting to HOLD), and `RiskJudge.judge` yields a decision in
BUY/SELL/HOLD and a winning side in RISKY/CONSERVATIVE/NEUTRAL. -/
theorem C10_classifier_totality :
    (∀ report : String,
      dget (pm_decide report) "decision" "" = "BUY" ∨
      dget (pm_decide report) "decision" "" = "SELL" ∨
      dget (pm_decide report) "decision" "" = "HOLD") ∧
    (∀ response : String,
      (dget (risk_judge_result response) "decision" "" = "BUY" ∨
       dget (risk_judge_result response) "decision" "" = "SELL" ∨
       dget (risk_judge_result response) "decision" "" = "HOLD") ∧
      (dget (risk_judge_result response) "winning_side" "" = "RISKY" ∨
       dget (risk_judge_result response) "winning_side" "" = "CONSERVATIVE" ∨
       dget (risk_judge_result response) "winning_side" "" = "NEUTRAL")) := by
  refine ⟨fun report => ?_, fun response => ⟨?_, ?_⟩⟩
  · have h : dget (pm_decide report) "decision" "" =
        pmExtractDecision report := by
      simp [pm_decide, dget, alookup]
    rw [h]
    unfold pmExtractDecision
    split_ifs <;> simp
  · have h : dget (risk_judge_result response) "decision" "" =
        judgeExtractDecision response := by
      simp [risk_judge_result, dget, alookup]
    rw [h]
    unfold judgeExtractDecision
    split_ifs <;> simp
  · have h : dget (risk_judge_result response) "winning_side" "" =
        judgeWinningSide response := by
      simp [risk_judge_result, dget, alookup]
    rw [h]
    unfold judgeWinningSide
    split_ifs <;> simp

/-! More helper lemmas: fan-out slot reads, success-path equations. -/

theorem alookup_map_self {α β : Type} [DecidableEq α] (f : α → β) {i : α} :
    ∀ {l : List α}, i ∈ l →
      alookup i (l.map fun j => (j, f j)) = some (f i) := by
  intro l
  induction l with
  | nil => intro h; cases h
  | cons a t ih =>
    intro h
    by_cases hia : i = a
    · subst hia; simp [alookup]
    · have ht : i ∈ t := by
        rcases List.mem_cons.mp h with h1 | h1
        · exact absurd h1 hia
        · exact h1
      simpa [alookup, hia] using ih ht

theorem slotRead_of_mem {e : StockEnv} {sched : List (Fin 5)} {i : Fin 5}
    (h : i ∈ sched) : slotRead e sched i = readDict (analystOutcome e i) := by
  unfold slotRead fanTable
  rw [alookup_map_self (fun j => analystOutcome e j) h]
  rfl

theorem firstFailure_none_of_ok {e : StockEnv} (sched : List (Fin 5))
    (hok : ∀ i : Fin 5, isErr (analystOutcome e i) = false) :
    firstFailure e sched = none := by
  unfold firstFailure
  rw [List.find?_eq_none.mpr]
  · rfl
  · intro i _ hi
    rw [hok i] at hi
    cases hi

theorem streamFollowup_invoked (userMsg : String) (ef : FollowEnv)
    (cache : Cache) :
    (streamFollowup userMsg ef cache).invoked = [NodeId.chatAssistant] := by
  unfold streamFollowup
  cases hr : ef.llm (followupSystemPrompt cache) userMsg with
  | ok r => simp only [hr]
  | error m => simp only [hr]

theorem streamStock_success_cacheAfter (t : String) (sched : List (Fin 5))
    (e : StockEnv) (ins : Except String String) (cache : Cache)
    (h1 : firstFailure e sched = none)
    (h2 : (runChain (stockChain e)).2.2 = none) :
    (streamStock t sched e ins cache).cacheAfter =
      ⟨some t, some (successReport t sched e), stockAnalysisData t sched e⟩ := by
  unfold streamStock
  simp only [h1, h2]

theorem streamCrypto_success_cacheAfter (t : String) (ec : CryptoEnv)
    (ins : Except String String) (cache : Cache)
    (h2 : (runChain (cryptoChain ec)).2.2 = none) :
    (streamCrypto t ec ins cache).cacheAfter =
      ⟨some t, some (cryptoSuccessReport t ec), cryptoAnalysisData t ec⟩ := by
  unfold streamCrypto
  simp only [h2]

theorem run_analysis_cacheAfter (ticker : Option String) (e : StockEnv)
    (ins : Except String String) (cache : Cache) :
    (run_analysis ticker e ins cache).cacheAfter = cache := by
  cases ticker with
  | none => rfl
  | some t0 =>
    unfold run_analysis
    cases hr : (runChain (runAnalysisChain e)).2.2 with
    | some m => simp only [hr]
    | none => simp only [hr]

theorem successReport_sched_congr (t : String) (e : StockEnv)
    {sched1 sched2 : List (Fin 5)}
    (h1 : ∀ i : Fin 5, i ∈ sched1) (h2 : ∀ i : Fin 5, i ∈ sched2) :
    successReport t sched1 e = successReport t sched2 e := by
  have m1 : ∀ i : Fin 5, slotRead e sched1 i = readDict (analystOutcome e i) :=
    fun i => slotRead_of_mem (h1 i)
  have m2 : ∀ i : Fin 5, slotRead e sched2 i = readDict (analystOutcome e i) :=
    fun i => slotRead_of_mem (h2 i)
  unfold successReport
  rw [m1 0, m1 1, m1 2, m1 3, m1 4, m2 0, m2 1, m2 2, m2 3, m2 4]

theorem stockAnalysisData_sched_congr (t : String) (e : StockEnv)
    {sched1 sched2 : List (Fin 5)}
    (h1 : ∀ i : Fin 5, i ∈ sched1) (h2 : ∀ i : Fin 5, i ∈ sched2) :
    stockAnalysisData t sched1 e = stockAnalysisData t sched2 e := by
  have m1 : ∀ i : Fin 5, slotRead e sched1 i = readDict (analystOutcome e i) :=
    fun i => slotRead_of_mem (h1 i)
  have m2 : ∀ i : Fin 5, slotRead e sched2 i = readDict (analystOutcome e i) :=
    fun i => slotRead_of_mem (h2 i)
  unfold stockAnalysisData
  rw [m1 0, m1 1, m1 2, m1 3, m1 4, m2 0, m2 1, m2 2, m2 3, m2 4]

/-- C2 counterexample: with the market analyst raising while the other four
fan-out members complete (the fundamentals fragment is `FUNDFRAG`), no node
downstream of the fan-out group executes, but the completed siblings'
fragments appear in no delivered event: the failure payload carries only
the error text, contradicting the claim that completed sibling results are
retained and exposed alongside the failure. -/
theorem C2_counterexample :
    isErr envMarketFails.market = true ∧
    dget (readDict envMarketFails.fundamentals) "report_section" ""
      = "FUNDFRAG" ∧
    (streamStock "AA" idSched envMarketFails insOk cache0).invoked
      = fanOutNodes ∧
    ((streamStock "AA" idSched envMarketFails insOk cache0).chunks.all
      fun c => !chunkHasSub "FUNDFRAG" c) = true := by
  refine ⟨rfl, rfl, ?_, ?_⟩ <;> decide

/-- C2 (amended): when a member of the five-analyst fan-out group raises,
the stream delivers exactly the two opening banners, the failure text of
the temporally first failing member, and the terminal sentinel — the
already-completed siblings' results are discarded, not exposed — and no
node downstream of the fan-out group is dispatched; the cache is untouched
and nothing is persisted. -/
theorem C2_fanout_failure_amended (t : String) (sched : List (Fin 5))
    (e : StockEnv) (ins : Except String String) (cache : Cache) (m : String)
    (h : firstFailure e sched = some m) :
    streamStock t sched e ins cache =
      ⟨["🔍 เริ่มวิเคราะห์หุ้น **" ++ t ++ "**...\n\n",
        "📊 **Phase 1:** กำลังรวบรวมข้อมูล...\n",
        errText m].map format_sse_chunk ++ [format_sse_done],
       fanOutNodes, cache, []⟩ := by
  unfold streamStock
  simp only [h]
  rfl

/-- Witness for the amended C2 at a concrete failing run. -/
theorem C2_fanout_failure_witness :
    firstFailure envMarketFails idSched = some "MARKET_DOWN" ∧
    streamStock "AA" idSched envMarketFails insOk cache0 =
      ⟨["🔍 เริ่มวิเคราะห์หุ้น **AA**...\n\n",
        "📊 **Phase 1:** กำลังรวบรวมข้อมูล...\n",
        errText "MARKET_DOWN"].map format_sse_chunk ++ [format_sse_done],
       fanOutNodes, cache0, []⟩ :=
  ⟨rfl,
   C2_fanout_failure_amended "AA" idSched envMarketFails insOk cache0
     "MARKET_DOWN" rfl⟩

/-- C4 counterexample: with no resolved ticker and a non-empty context
cache, the non-streaming handler returns the fixed instructional message
and dispatches no task at all, contradicting the claim that the follow-up
dispatch behaviour holds on the non-streaming path too. -/
theorem C4_counterexample :
    truthy cacheAAPL.last_ticker = true ∧
    truthy cacheAAPL.last_report = true ∧
    (run_analysis none envAllOk insOk cacheAAPL).response = noTickerMsg ∧
    (run_analysis none envAllOk insOk cacheAAPL).invoked = [] :=
  ⟨rfl, rfl, rfl, rfl⟩

/-- C4 (amended): on the streaming path, an unresolved ticker with a
non-empty cache dispatches exactly the one follow-up chat task grounded in
the cached report (the analysis subgraph is never invoked), and with an
empty cache yields the fixed instructional message with no dispatch; the
non-streaming path always returns the fixed message at once when no ticker
resolves, regardless of the cache, dispatching nothing. -/
theorem C4_followup_routing_amended (userMsg : String)
    (sched : List (Fin 5)) (e : StockEnv) (ec : CryptoEnv) (ef : FollowEnv)
    (ins : Except String String) (cache : Cache) :
    ((truthy cache.last_ticker && truthy cache.last_report) = true →
      stream_analysis none userMsg sched e ec ef ins cache =
        streamFollowup userMsg ef cache ∧
      (stream_analysis none userMsg sched e ec ef ins cache).invoked =
        [NodeId.chatAssistant]) ∧
    ((truthy cache.last_ticker && truthy cache.last_report) = false →
      stream_analysis none userMsg sched e ec ef ins cache =
        ⟨[format_sse_chunk noTickerMsg, format_sse_done], [], cache, []⟩) ∧
    run_analysis none e ins cache = ⟨noTickerMsg, [], cache, []⟩ := by
  refine ⟨fun h => ?_, fun h => ?_, rfl⟩
  · have he : stream_analysis none userMsg sched e ec ef ins cache =
        streamFollowup userMsg ef cache := by
      show (if (truthy cache.last_ticker && truthy cache.last_report) = true
            then streamFollowup userMsg ef cache
            else ⟨[format_sse_chunk noTickerMsg, format_sse_done], [], cache,
                  []⟩) = streamFollowup userMsg ef cache
      rw [if_pos h]
    exact ⟨he, by rw [he]; exact streamFollowup_invoked userMsg ef cache⟩
  · show (if (truthy cache.last_ticker && truthy cache.last_report) = true
          then streamFollowup userMsg ef cache
          else ⟨[format_sse_chunk noTickerMsg, format_sse_done], [], cache,
                []⟩) =
        ⟨[format_sse_chunk noTickerMsg, format_sse_done], [], cache, []⟩
    rw [if_neg (by simp [h])]

/-- Witness for the amended C4 at a non-empty and at an empty cache. -/
theorem C4_followup_routing_witness :
    (stream_analysis none "MSG" idSched envAllOk envCryptoOk followOk insOk
        cacheAAPL).invoked = [NodeId.chatAssistant] ∧
    stream_analysis none "MSG" idSched envAllOk envCryptoOk followOk insOk
        cache0 =
      ⟨[format_sse_chunk noTickerMsg, format_sse_done], [], cache0, []⟩ :=
  ⟨((C4_followup_routing_amended "MSG" idSched envAllOk envCryptoOk followOk
      insOk cacheAAPL).1 rfl).2,
   (C4_followup_routing_amended "MSG" idSched envAllOk envCryptoOk followOk
      insOk cache0).2.1 rfl⟩

/-- C5: for a subject-class-A run in which every fan-out analyst succeeds,
any two temporal completion orders of the five independent fan-out tasks
produce the identical streamed output — in particular the same aggregated
report with the same fragment order — given identical per-node outputs. -/
theorem C5_schedule_independence (t : String) (e : StockEnv)
    (ins : Except String String) (cache : Cache)
    (sched1 sched2 : List (Fin 5))
    (h1 : sched1.Perm (List.finRange 5)) (h2 : sched2.Perm (List.finRange 5))
    (hok : ∀ i : Fin 5, isErr (analystOutcome e i) = false) :
    streamStock t sched1 e ins cache = streamStock t sched2 e ins cache := by
  have hm1 : ∀ i : Fin 5, i ∈ sched1 :=
    fun i => h1.mem_iff.mpr (List.mem_finRange i)
  have hm2 : ∀ i : Fin 5, i ∈ sched2 :=
    fun i => h2.mem_iff.mpr (List.mem_finRange i)
  have hf1 : firstFailure e sched1 = none := firstFailure_none_of_ok _ hok
  have hf2 : firstFailure e sched2 = none := firstFailure_none_of_ok _ hok
  have hrep := successReport_sched_congr t e hm1 hm2
  have hdat := stockAnalysisData_sched_congr t e hm1 hm2
  unfold streamStock
  simp only [hf1, hf2]
  cases hr : (runChain (stockChain e)).2.2 with
  | some m => simp only [hr]
  | none => simp only [hr, hrep, hdat]

/-- Witness for C5: two concrete opposite completion orders of a concrete
all-success run give the same output. -/
theorem C5_schedule_independence_witness :
    streamStock "AA" idSched envAllOk insOk cache0 =
      streamStock "AA" [4, 3, 2, 1, 0] envAllOk insOk cache0 :=
  C5_schedule_independence "AA" envAllOk insOk cache0 idSched [4, 3, 2, 1, 0]
    (by decide) (by decide) (by decide)

/-- C6 counterexample: a successful non-streaming run for NVDA (all
thirteen nodes dispatched) leaves the previously cached AAPL context
untouched — the cache does not hold the second run's data, contradicting
the claim for the non-streaming path. -/
theorem C6_counterexample :
    (run_analysis (some "NVDA") envAllOk insOk cacheAAPL).invoked
      = seqNodes ∧
    (run_analysis (some "NVDA") envAllOk insOk cacheAAPL).cacheAfter
      = cacheAAPL ∧
    ¬((run_analysis (some "NVDA") envAllOk insOk cacheAAPL).cacheAfter.last_ticker
      = some "NVDA") := by
  refine ⟨?_, ?_, ?_⟩ <;> decide

/-- C6 (amended): every successful **streaming** run (stock or crypto)
overwrites the single session cache whole — ticker, report text, and the
per-section extract dict are all replaced by values derived only from that
run, independent of the previous cache contents — so after two successive
successful streaming runs the cache holds only the second run's data and a
following unresolved-ticker follow-up is grounded exclusively in the
second run's context; the non-streaming path never modifies the cache. -/
theorem C6_cache_overwrite_amended (t : String) (sched : List (Fin 5))
    (e : StockEnv) (ec : CryptoEnv) (ins : Except String String)
    (cache cache2 : Cache) :
    (firstFailure e sched = none → (runChain (stockChain e)).2.2 = none →
      (streamStock t sched e ins cache).cacheAfter =
        ⟨some t, some (successReport t sched e),
         stockAnalysisData t sched e⟩) ∧
    ((runChain (cryptoChain ec)).2.2 = none →
      (streamCrypto t ec ins cache).cacheAfter =
        ⟨some t, some (cryptoSuccessReport t ec), cryptoAnalysisData t ec⟩) ∧
    (∀ tk : Option String,
      (run_analysis tk e ins cache).cacheAfter = cache) ∧
    (firstFailure e sched = none → (runChain (stockChain e)).2.2 = none →
      ∀ (userMsg : String) (ef : FollowEnv),
        streamFollowup userMsg ef
          (streamStock t sched e ins cache).cacheAfter =
        streamFollowup userMsg ef
          (streamStock t sched e ins cache2).cacheAfter) := by
  refine ⟨streamStock_success_cacheAfter t sched e ins cache,
          streamCrypto_success_cacheAfter t ec ins cache,
          fun tk => run_analysis_cacheAfter tk e ins cache,
          fun hA hB userMsg ef => ?_⟩
  rw [streamStock_success_cacheAfter t sched e ins cache hA hB,
      streamStock_success_cacheAfter t sched e ins cache2 hA hB]

/-- Witness for the amended C6 at a concrete successful run over a
non-empty prior cache. -/
theorem C6_cache_overwrite_witness :
    (streamStock "AA" idSched envAllOk insOk cacheAAPL).cacheAfter =
      ⟨some "AA", some (successReport "AA" idSched envAllOk),
       stockAnalysisData "AA" idSched envAllOk⟩ ∧
    (run_analysis (some "NVDA") envAllOk insOk cacheAAPL).cacheAfter
      = cacheAAPL :=
  ⟨(C6_cache_overwrite_amended "AA" idSched envAllOk envCryptoOk insOk
      cacheAAPL cache0).1 rfl rfl,
   (C6_cache_overwrite_amended "AA" idSched envAllOk envCryptoOk insOk
      cacheAAPL cache0).2.2.1 (some "NVDA")⟩

/-- C7: persistence failures never fail the run: `save_analysis` returns
normally on every input (returning None when not connected or when the
insert raises), the streamed events, cache update and dispatches are
identical whatever the insert outcome is, and when the client is not
connected no save is attempted at all, on both the streaming and
non-streaming paths. -/
theorem C7_persistence_isolation :
    (∀ (connected : Bool) (ins : Except String String),
      ∃ v, save_analysis connected ins = Except.ok v) ∧
    (∀ ins : Except String String,
      save_analysis false ins = Except.ok none) ∧
    (∀ (t : String) (sched : List (Fin 5)) (e : StockEnv)
       (i1 i2 : Except String String) (cache : Cache),
      (streamStock t sched e i1 cache).chunks =
        (streamStock t sched e i2 cache).chunks ∧
      (streamStock t sched e i1 cache).cacheAfter =
        (streamStock t sched e i2 cache).cacheAfter ∧
      (streamStock t sched e i1 cache).invoked =
        (streamStock t sched e i2 cache).invoked) ∧
    (∀ (tk : Option String) (e : StockEnv) (i1 i2 : Except String String)
       (cache : Cache),
      (run_analysis tk e i1 cache).response =
        (run_analysis tk e i2 cache).response ∧
      (run_analysis tk e i1 cache).invoked =
        (run_analysis tk e i2 cache).invoked ∧
      (run_analysis tk e i1 cache).cacheAfter =
        (run_analysis tk e i2 cache).cacheAfter) ∧
    (∀ (t : String) (sched : List (Fin 5)) (e : StockEnv)
       (ins : Except String String) (cache : Cache), e.connected = false →
      (streamStock t sched e ins cache).saves = [] ∧
      ∀ tk : Option String, (run_analysis tk e ins cache).saves = []) := by
  refine ⟨fun connected ins => ?_, fun ins => rfl,
          fun t sched e i1 i2 cache => ?_,
          fun tk e i1 i2 cache => ?_,
          fun t sched e ins cache h => ⟨?_, fun tk => ?_⟩⟩
  · cases connected with
    | false => exact ⟨none, rfl⟩
    | true =>
      cases ins with
      | ok i => exact ⟨some i, rfl⟩
      | error m => exact ⟨none, rfl⟩
  · unfold streamStock
    cases hf : firstFailure e sched with
    | some m => simp only [hf]; exact ⟨trivial, trivial, trivial⟩
    | none =>
      simp only [hf]
      cases hr : (runChain (stockChain e)).2.2 with
      | some m => simp only [hr]; exact ⟨trivial, trivial, trivial⟩
      | none => simp only [hr]; exact ⟨trivial, trivial, trivial⟩
  · cases tk with
    | none => exact ⟨rfl, rfl, rfl⟩
    | some t0 =>
      unfold run_analysis
      cases hr : (runChain (runAnalysisChain e)).2.2 with
      | some m => simp only [hr]; exact ⟨trivial, trivial, trivial⟩
      | none => simp only [hr]; exact ⟨trivial, trivial, trivial⟩
  · unfold streamStock
    cases hf : firstFailure e sched with
    | some m => simp only [hf]
    | none =>
      simp only [hf]
      cases hr : (runChain (stockChain e)).2.2 with
      | some m => simp only [hr]
      | none => simp only [hr, h, Bool.false_eq_true, if_false]
  · cases tk with
    | none => rfl
    | some t0 =>
      unfold run_analysis
      cases hr : (runChain (runAnalysisChain e)).2.2 with
      | some m => simp only [hr]
      | none => simp only [hr, h, Bool.false_eq_true, if_false]

/-- Witness for C7 at a concrete disconnected environment. -/
theorem C7_persistence_isolation_witness :
    (∃ v, save_analysis false insOk = Except.ok v) ∧
    (streamStock "AA" idSched envNoDb insOk cache0).saves = [] ∧
    (run_analysis (some "AA") envNoDb insOk cache0).saves = [] :=
  ⟨C7_persistence_isolation.1 false insOk,
   (C7_persistence_isolation.2.2.2.2 "AA" idSched envNoDb insOk cache0
      rfl).1,
   (C7_persistence_isolation.2.2.2.2 "AA" idSched envNoDb insOk cache0
      rfl).2 (some "AA")⟩

/-! Helper lemmas for `normalize_ticker` idempotence: properties of the
ASCII upper-casing, of `strip`, and of the lookup tables. -/

theorem mem_of_alookup {α β : Type} [DecidableEq α] {k : α} {v : β} :
    ∀ {l : List (α × β)}, alookup k l = some v → (k, v) ∈ l := by
  intro l
  induction l with
  | nil => intro h; cases h
  | cons p t ih =>
    intro h
    by_cases hk : k = p.1
    · subst hk
      simp only [alookup, eq_self_iff_true, if_true, Option.some.injEq] at h
      subst h
      exact List.mem_cons_self _ _
    · simp only [alookup, if_neg hk] at h
      exact List.mem_cons_of_mem _ (ih h)

theorem lowUp_fixed :
    (lowUp.all fun p =>
      upperC p.2 == p.2 && !isWS p.1 && !isWS p.2) = true := by decide

theorem upperC_upperC (c : Char) : upperC (upperC c) = upperC c := by
  cases h : alookup c lowUp with
  | none =>
    have hc : upperC c = c := by unfold upperC; rw [h]; rfl
    rw [hc, hc]
  | some u =>
    have hc : upperC c = u := by unfold upperC; rw [h]; rfl
    have hm : (c, u) ∈ lowUp := mem_of_alookup h
    have hall := List.all_eq_true.mp lowUp_fixed (c, u) hm
    simp only [Bool.and_eq_true] at hall
    obtain ⟨⟨hupper, _⟩, _⟩ := hall
    rw [hc, eq_of_beq hupper]

theorem isWS_upperC (c : Char) : isWS (upperC c) = isWS c := by
  cases h : alookup c lowUp with
  | none =>
    have hc : upperC c = c := by unfold upperC; rw [h]; rfl
    rw [hc]
  | some u =>
    have hc : upperC c = u := by unfold upperC; rw [h]; rfl
    have hm : (c, u) ∈ lowUp := mem_of_alookup h
    have hall := List.all_eq_true.mp lowUp_fixed (c, u) hm
    simp only [Bool.and_eq_true] at hall
    obtain ⟨⟨_, hws1⟩, hws2⟩ := hall
    have h1 : isWS c = false := by simpa using hws1
    have h2 : isWS u = false := by simpa using hws2
    rw [hc, h1, h2]

theorem head?_dropWhile_false {α : Type} {p : α → Bool} {l : List α} {c : α}
    (h : (l.dropWhile p).head? = some c) : p c = false := by
  have hh := List.head?_dropWhile_not p l
  rw [h] at hh
  exact hh

theorem dropWhile_eq_self_of_head {α : Type} {p : α → Bool} {l : List α}
    (h : ∀ c, l.head? = some c → p c = false) : l.dropWhile p = l := by
  cases l with
  | nil => rfl
  | cons a t =>
    have ha := h a rfl
    simp [List.dropWhile_cons, ha]

theorem getLast?_dropWhile_of_ne_nil {α : Type} {p : α → Bool} {l : List α}
    (h : l.dropWhile p ≠ []) :
    (l.dropWhile p).getLast? = l.getLast? := by
  obtain ⟨t, ht⟩ := List.dropWhile_suffix (l := l) p
  conv_rhs => rw [← ht]
  rw [List.getLast?_append]
  cases hg : (l.dropWhile p).getLast? with
  | some x => rfl
  | none =>
    exact absurd (List.getLast?_eq_none_iff.mp hg) h

theorem dropWhile_pyStrip (l : List Char) :
    (pyStrip l).dropWhile isWS = pyStrip l := by
  apply dropWhile_eq_self_of_head
  intro c hc
  unfold pyStrip at hc
  rw [List.head?_reverse] at hc
  by_cases hB : (l.dropWhile isWS).reverse.dropWhile isWS = []
  · rw [hB] at hc; cases hc
  · rw [getLast?_dropWhile_of_ne_nil hB, List.getLast?_reverse] at hc
    exact head?_dropWhile_false hc

theorem dropWhile_pyStrip_reverse (l : List Char) :
    (pyStrip l).reverse.dropWhile isWS = (pyStrip l).reverse := by
  apply dropWhile_eq_self_of_head
  intro c hc
  unfold pyStrip at hc
  rw [List.reverse_reverse] at hc
  exact head?_dropWhile_false hc

theorem pyStrip_idem (l : List Char) : pyStrip (pyStrip l) = pyStrip l :=
  calc pyStrip (pyStrip l)
      = (((pyStrip l).dropWhile isWS).reverse.dropWhile isWS).reverse := rfl
    _ = ((pyStrip l).reverse.dropWhile isWS).reverse := by
        rw [dropWhile_pyStrip l]
    _ = (pyStrip l).reverse.reverse := by rw [dropWhile_pyStrip_reverse l]
    _ = pyStrip l := List.reverse_reverse _

theorem dropWhile_isWS_map_upperC (l : List Char) :
    (l.map upperC).dropWhile isWS = (l.dropWhile isWS).map upperC := by
  rw [List.dropWhile_map]
  have hf : (isWS ∘ upperC) = isWS := funext isWS_upperC
  rw [hf]

theorem pyStrip_map_upperC (l : List Char) :
    pyStrip (l.map upperC) = (pyStrip l).map upperC := by
  unfold pyStrip
  rw [dropWhile_isWS_map_upperC, ← List.map_reverse,
      dropWhile_isWS_map_upperC, ← List.map_reverse]

theorem map_upperC_idem (l : List Char) :
    (l.map upperC).map upperC = l.map upperC := by
  rw [List.map_map]
  have hf : (upperC ∘ upperC) = upperC := funext upperC_upperC
  rw [hf]

theorem stripUpper_idem (l : List Char) :
    stripUpper (stripUpper l) = stripUpper l := by
  unfold stripUpper
  rw [pyStrip_map_upperC, pyStrip_idem, map_upperC_idem]

theorem stripUpperS_idem (s : String) :
    stripUpperS (stripUpperS s) = stripUpperS s :=
  congrArg String.mk (stripUpper_idem s.data)

theorem norm_tables_fixed :
    ((company_names ++ corrections).all
      fun p => normalize_ticker p.2 == p.2) = true := by decide

theorem normalize_fixed_of_table {k v : String}
    (h : (k, v) ∈ company_names ++ corrections) :
    normalize_ticker v = v := by
  have hall := List.all_eq_true.mp norm_tables_fixed (k, v) h
  exact eq_of_beq hall

/-- C9: `normalize_ticker` is idempotent — applying it twice equals
applying it once, for every input string — and every output value of the
company-name, typo and crypto-suffix mappings is a fixed point of the
function. -/
theorem C9_normalize_ticker_idempotent :
    (∀ t : String,
      normalize_ticker (normalize_ticker t) = normalize_ticker t) ∧
    ((company_names ++ corrections).all
      fun p => normalize_ticker p.2 == p.2) = true := by
  refine ⟨fun t => ?_, norm_tables_fixed⟩
  cases hc : alookup (stripUpperS t) company_names with
  | some v =>
    have h1 : normalize_ticker t = v := by
      show (match alookup (stripUpperS t) company_names with
            | some corrected => corrected
            | none =>
              match alookup (stripUpperS t) corrections with
              | some corrected => corrected
              | none => stripUpperS t) = v
      rw [hc]
    rw [h1]
    exact normalize_fixed_of_table
      (List.mem_append_left _ (mem_of_alookup hc))
  | none =>
    cases hr : alookup (stripUpperS t) corrections with
    | some v =>
      have h1 : normalize_ticker t = v := by
        show (match alookup (stripUpperS t) company_names with
              | some corrected => corrected
              | none =>
                match alookup (stripUpperS t) corrections with
                | some corrected => corrected
                | none => stripUpperS t) = v
        rw [hc, hr]
      rw [h1]
      exact normalize_fixed_of_table
        (List.mem_append_right _ (mem_of_alookup hr))
    | none =>
      have h1 : normalize_ticker t = stripUpperS t := by
        show (match alookup (stripUpperS t) company_names with
              | some corrected => corrected
              | none =>
                match alookup (stripUpperS t) corrections with
                | some corrected => corrected
                | none => stripUpperS t) = stripUpperS t
        rw [hc, hr]
      rw [h1]
      show (match alookup (stripUpperS (stripUpperS t)) company_names with
            | some corrected => corrected
            | none =>
              match alookup (stripUpperS (stripUpperS t)) corrections with
              | some corrected => corrected
              | none => stripUpperS (stripUpperS t)) = stripUpperS t
      rw [stripUpperS_idem, hc, hr]

end StockAnalystAi
